import Mathlib

/-!
Verification of the FoodPlanner barcode scanner
(`src/food_barcode_scanner.py`) via a shallow embedding.

The three external capabilities are modelled as parameters:
* the OpenFoodFacts client `api.product.get` becomes an oracle
  `String → ApiResult` whose result is either a raised transport error,
  a falsy value (product missing), or a truthy record with the three
  optional fields requested by the code;
* `time.time()` becomes an oracle `Nat → ℚ` giving the sample taken at
  the i-th loop iteration of `process_barcodes`;
* camera frames, decoded symbols and key presses become explicit inputs.

Python exceptions are modelled with `Except Unit`: a raised exception
propagates out of every function that does not catch it, exactly as in
the source (which contains no try/except).  Side effects (console
prints, OpenCV drawing, imshow, release, destroyAllWindows) are
recorded as ordered event traces.
-/

/-- The sentinel used by `FoodProduct.__init__` for every field. -/
def notAvailable : String := "Not available"

/-- `FoodProduct`: barcode plus the three fields, as in the Python class. -/
structure FoodProduct where
  barcode : String
  name : String
  brand : String
  ingredients : String
deriving DecidableEq

/-- `FoodProduct.__init__`: all fields start at the sentinel. -/
def FoodProduct.new (barcode : String) : FoodProduct :=
  { barcode := barcode, name := notAvailable, brand := notAvailable,
    ingredients := notAvailable }

/-- The three fields requested from the API
(`fields=["product_name", "brands", "ingredients_text"]`); each may be
absent from the response dict. -/
structure ProductRecord where
  product_name : Option String
  brands : Option String
  ingredients_text : Option String
deriving DecidableEq

/-- Outcome of one call to `api.product.get`:
a raised transport exception, a falsy result (`if product:` fails), or
a truthy record. -/
inductive ApiResult where
  | transportError
  | notFound
  | found (r : ProductRecord)
deriving DecidableEq

/-- `FoodProduct.load_info`.  The call `api.product.get(...)` may raise
(there is no try/except, so the exception propagates as `.error`).  A
truthy result populates each field via `product.get(key, current)`,
i.e. an absent key keeps the field's current value; then `True` is
returned.  A falsy result leaves the product untouched and returns
`False`. -/
def FoodProduct.load_info (api : String → ApiResult) (p : FoodProduct) :
    Except Unit (FoodProduct × Bool) :=
  match api p.barcode with
  | .transportError => .error ()
  | .notFound => .ok (p, false)
  | .found r =>
      .ok ({ p with
              name := r.product_name.getD p.name,
              brand := r.brands.getD p.brand,
              ingredients := r.ingredients_text.getD p.ingredients }, true)

/-- Whether the oracle reports a truthy record for a barcode. -/
def lookupFound (api : String → ApiResult) (c : String) : Bool :=
  match api c with
  | .found _ => true
  | _ => false

/-- `BarcodeScanner.scan_image`, after `pyzbar.decode` has produced the
list of barcode payload strings in detection order.  Each symbol gets a
fresh `FoodProduct` and a lookup; successes are collected in order,
failures produce a "Product not found" console notice (recorded here as
the barcode string) and are skipped.  An exception raised by a lookup
propagates. -/
def BarcodeScanner.scan_image (api : String → ApiResult) :
    List String → Except Unit (List String × List FoodProduct)
  | [] => .ok ([], [])
  | c :: cs =>
    match (FoodProduct.new c).load_info api with
    | .error e => .error e
    | .ok (p, true) =>
        match BarcodeScanner.scan_image api cs with
        | .error e => .error e
        | .ok (ns, ps) => .ok (ns, p :: ps)
    | .ok (_, false) =>
        match BarcodeScanner.scan_image api cs with
        | .error e => .error e
        | .ok (ns, ps) => .ok (c :: ns, ps)

/-- Bounding rectangle of a decoded symbol (`barcode.rect`). -/
structure Rect where
  x : Int
  y : Int
  w : Int
  h : Int
deriving DecidableEq

/-- A `pyzbar.Decoded` symbol: payload (already utf-8 decoded),
symbology type string, bounding rectangle. -/
structure Decoded where
  data : String
  type : String
  rect : Rect
deriving DecidableEq

/-- One observable effect of `ContinuousProductScanner.process_barcodes`:
`cv2.rectangle`, `cv2.putText`, or one of the three console prints. -/
inductive Event where
  | rectangle (x1 y1 x2 y2 : Int)
  | putText (text : String) (x y : Int)
  | printScanned (text : String)
  | printProduct (p : FoodProduct)
  | printNotFound
deriving DecidableEq

/-- The two drawing calls made for a symbol (lines 156-164): the
bounding box and the "payload (type)" label 10 pixels above it. -/
def drawsOf (b : Decoded) : List Event :=
  [Event.rectangle b.rect.x b.rect.y (b.rect.x + b.rect.w) (b.rect.y + b.rect.h),
   Event.putText (b.data ++ " (" ++ b.type ++ ")") b.rect.x (b.rect.y - 10)]

/-- `self.scan_interval = 2.0` from `ContinuousProductScanner.__init__`. -/
def ContinuousProductScanner.scan_interval : ℚ := 2

/-- `self.last_scan_time = 0` from `ContinuousProductScanner.__init__`. -/
def ContinuousProductScanner.init_last_scan_time : ℚ := 0

/-- `ContinuousProductScanner.process_barcodes`.  `times i` is the value
`time.time()` returns at the i-th iteration of the symbol loop (sampled
before the lookup of that iteration, as in the source).  The state is
`last` (= `self.last_scan_time`).  Per symbol: draw box and label
unconditionally; then, if `current_time - last >= scan_interval`, print
"Scanned: ...", build a fresh product, look it up (an exception
propagates), print the product or a not-found notice, and set `last` to
`current_time`.  Returns the event trace and the final
`last_scan_time`. -/
def ContinuousProductScanner.process_barcodes (api : String → ApiResult)
    (times : Nat → ℚ) :
    Nat → ℚ → List Decoded → Except Unit (List Event × ℚ)
  | _, last, [] => .ok ([], last)
  | i, last, b :: bs =>
    let current_time := times i
    if ContinuousProductScanner.scan_interval ≤ current_time - last then
      match (FoodProduct.new b.data).load_info api with
      | .error e => .error e
      | .ok (p, loaded) =>
        match ContinuousProductScanner.process_barcodes api times (i + 1)
            current_time bs with
        | .error e => .error e
        | .ok (evs, last') =>
          .ok (drawsOf b ++
                 (Event.printScanned
                     ("Scanned: " ++ b.data ++ " (" ++ b.type ++ ")") ::
                   (if loaded then [Event.printProduct p]
                    else [Event.printNotFound])) ++ evs, last')
    else
      match ContinuousProductScanner.process_barcodes api times (i + 1)
          last bs with
      | .error e => .error e
      | .ok (evs, last') => .ok (drawsOf b ++ evs, last')

/-- The console events the gated branch emits for one symbol whose
lookup does not raise: the "Scanned:" line, then either the product or
the not-found notice. -/
def reportEvs (api : String → ApiResult) (b : Decoded) : List Event :=
  Event.printScanned ("Scanned: " ++ b.data ++ " (" ++ b.type ++ ")") ::
    match (FoodProduct.new b.data).load_info api with
    | .ok (p, true) => [Event.printProduct p]
    | _ => [Event.printNotFound]

/-- Recognises the two drawing events. -/
def Event.isDraw : Event → Bool
  | .rectangle _ _ _ _ => true
  | .putText _ _ _ => true
  | _ => false

/-- Recognises the three console-print events. -/
def Event.isReport : Event → Bool
  | .printScanned _ => true
  | .printProduct _ => true
  | .printNotFound => true
  | _ => false

/-- The drawing events of a whole frame, in symbol order. -/
def allDraws : List Decoded → List Event
  | [] => []
  | b :: bs => drawsOf b ++ allDraws bs

/-- One observable effect of `ContinuousProductScanner.scan_products`:
the frame-grab failure notice, an effect of `process_barcodes`,
`cv2.imshow`, `self.cap.release()`, or `cv2.destroyAllWindows()`. -/
inductive SEvent where
  | printFailGrab
  | proc (e : Event)
  | imshow
  | release
  | destroyAllWindows
deriving DecidableEq

/-- The environment of one iteration of the `while True` loop:
whether `self.cap.read()` succeeded, the symbols `pyzbar.decode` finds
in the frame, the `time.time()` samples seen during that frame's
`process_barcodes`, and the value `cv2.waitKey(1)` returns. -/
structure StepInput where
  ret : Bool
  symbols : List Decoded
  times : Nat → ℚ
  key : Nat

/-- How a run of `scan_products` ends: the loop broke and the epilogue
(`release`, `destroyAllWindows`) ran; an uncaught exception propagated
out of a lookup (skipping the epilogue); or the supplied environment
ran out before any exit condition occurred (the loop is still
running). -/
inductive RunResult where
  | exited (events : List SEvent)
  | crashed (events : List SEvent)
  | outOfFrames (events : List SEvent)

/-- `ContinuousProductScanner.scan_products`, driven by a finite list
of per-iteration environments.  Per iteration: if the frame grab fails,
print the notice, break, and run the epilogue; otherwise detect and
process the barcodes (an exception propagates and skips the epilogue),
show the frame, and break into the epilogue when the masked key equals
`ord("q") = 113`. -/
def ContinuousProductScanner.scan_products (api : String → ApiResult) :
    ℚ → List StepInput → RunResult
  | _, [] => .outOfFrames []
  | last, step :: rest =>
    if step.ret = false then
      .exited [.printFailGrab, .release, .destroyAllWindows]
    else
      match ContinuousProductScanner.process_barcodes api step.times 0 last
          step.symbols with
      | .error _ => .crashed []
      | .ok (evs, last') =>
        let evs' := evs.map SEvent.proc ++ [SEvent.imshow]
        if step.key &&& 255 = 113 then
          .exited (evs' ++ [.release, .destroyAllWindows])
        else
          match ContinuousProductScanner.scan_products api last' rest with
          | .exited es => .exited (evs' ++ es)
          | .crashed es => .crashed (evs' ++ es)
          | .outOfFrames es => .outOfFrames (evs' ++ es)

/-- Number of occurrences of a session event in a trace. -/
def countEv (e : SEvent) : List SEvent → Nat
  | [] => 0
  | x :: xs => (if x = e then 1 else 0) + countEv e xs

/-- An oracle on which every lookup fails with a falsy result. -/
def wApi : String → ApiResult := fun _ => ApiResult.notFound

/-- An oracle on which every lookup raises a transport error. -/
def errApi : String → ApiResult := fun _ => ApiResult.transportError

/-- An oracle returning a fixed record with two of the three fields. -/
def wFound : String → ApiResult :=
  fun _ => ApiResult.found ⟨some "Snickers", some "Mars", none⟩

/-- Claim C2: for every barcode whose remote lookup returns a truthy
product record, `load_info` on a freshly constructed product returns
`True` and sets `name`, `brand`, `ingredients` to exactly the fields
present in the response, each absent field keeping the
"Not available" sentinel. -/
theorem c2_success_populates_exact_fields (api : String → ApiResult)
    (barcode : String) (r : ProductRecord) (h : api barcode = .found r) :
    (FoodProduct.new barcode).load_info api =
      .ok ({ barcode := barcode,
             name := r.product_name.getD notAvailable,
             brand := r.brands.getD notAvailable,
             ingredients := r.ingredients_text.getD notAvailable }, true) := by
  simp [FoodProduct.load_info, FoodProduct.new, h]

theorem c2_witness :
    (FoodProduct.new "5000159484695").load_info wFound =
      .ok ({ barcode := "5000159484695",
             name := (some "Snickers").getD notAvailable,
             brand := (some "Mars").getD notAvailable,
             ingredients := (none : Option String).getD notAvailable },
           true) :=
  c2_success_populates_exact_fields wFound "5000159484695"
    ⟨some "Snickers", some "Mars", none⟩ rfl

/-- Claim C3: for every barcode with no matching remote record (falsy
API result), `load_info` returns `False` and leaves the freshly
constructed product completely unchanged: every field still the
"Not available" sentinel. -/
theorem c3_miss_leaves_product_unchanged (api : String → ApiResult)
    (barcode : String) (h : api barcode = .notFound) :
    (FoodProduct.new barcode).load_info api =
      .ok (FoodProduct.new barcode, false) := by
  simp [FoodProduct.load_info, FoodProduct.new, h]

theorem c3_witness :
    (FoodProduct.new "0000000000000").load_info wApi =
      .ok (FoodProduct.new "0000000000000", false) :=
  c3_miss_leaves_product_unchanged wApi "0000000000000" rfl

/-- Claim C4 counterexample: on a transport error the call inside
`load_info` raises and the exception propagates out (`.error ()`); the
method does not return `False` with the fields at their defaults, as
the claim states. -/
theorem c4_counterexample :
    (FoodProduct.new "3017620422003").load_info errApi = .error () ∧
    (FoodProduct.new "3017620422003").load_info errApi ≠
      .ok (FoodProduct.new "3017620422003", false) := by
  refine ⟨rfl, ?_⟩
  simp [FoodProduct.load_info, errApi, FoodProduct.new]

/-- Claim C4 (amended): when the remote request raises a transport
error, `load_info` contains no try/except, so the exception propagates
to the caller; no field assignment has happened (the product is only
updated after a truthy result), but no `False` return and no printed
diagnostic occurs in `load_info` itself. -/
theorem c4_amended_transport_error_propagates (api : String → ApiResult)
    (p : FoodProduct) (h : api p.barcode = .transportError) :
    p.load_info api = .error () := by
  simp [FoodProduct.load_info, h]

theorem c4_witness :
    (FoodProduct.new "4000417025005").load_info errApi = .error () :=
  c4_amended_transport_error_propagates errApi (FoodProduct.new "4000417025005") rfl

/-- Claim C8: the barcode field is immutable: whenever `load_info`
returns normally, the resulting product carries the same barcode as the
input product, whatever the lookup's outcome. -/
theorem c8_barcode_immutable (api : String → ApiResult)
    (p q : FoodProduct) (b : Bool) (h : p.load_info api = .ok (q, b)) :
    q.barcode = p.barcode := by
  unfold FoodProduct.load_info at h
  cases hapi : api p.barcode <;> rw [hapi] at h
  · cases h
  · simp only [Except.ok.injEq, Prod.mk.injEq] at h
    rw [← h.1]
  · simp only [Except.ok.injEq, Prod.mk.injEq] at h
    rw [← h.1]

theorem c8_witness :
    ({ barcode := "5000159484695", name := "Snickers", brand := "Mars",
       ingredients := notAvailable } : FoodProduct).barcode =
      (FoodProduct.new "5000159484695").barcode :=
  c8_barcode_immutable wFound (FoodProduct.new "5000159484695")
    { barcode := "5000159484695", name := "Snickers", brand := "Mars",
      ingredients := notAvailable } true rfl

/-- Claim C5: when no lookup raises, `scan_image` returns exactly the
products whose lookup succeeded, in detection order, and a console
notice for each symbol whose lookup failed; symbols with failed lookups
do not appear in the product list, which is therefore empty when zero
barcodes decode or all lookups fail. -/
theorem c5_scan_image_collects_successes (api : String → ApiResult)
    (codes : List String) (h : ∀ c ∈ codes, api c ≠ .transportError) :
    BarcodeScanner.scan_image api codes =
      .ok (codes.filter (fun c => !lookupFound api c),
           codes.filterMap (fun c =>
             match (FoodProduct.new c).load_info api with
             | .ok (p, true) => some p
             | _ => none)) := by
  induction codes with
  | nil => rfl
  | cons c cs ih =>
    have hc := h c (List.mem_cons_self c cs)
    have ih' := ih (fun d hd => h d (List.mem_cons_of_mem c hd))
    cases hapi : api c with
    | transportError => exact absurd hapi hc
    | notFound =>
        simp [BarcodeScanner.scan_image, FoodProduct.load_info,
          FoodProduct.new, hapi, ih', lookupFound]
    | found r =>
        simp [BarcodeScanner.scan_image, FoodProduct.load_info,
          FoodProduct.new, hapi, ih', lookupFound]

/-- An oracle resolving one barcode and missing the other. -/
def wApi5 : String → ApiResult := fun c =>
  if c = "5000159484695" then ApiResult.found ⟨some "Snickers", some "Mars", none⟩
  else ApiResult.notFound

theorem c5_witness :
    BarcodeScanner.scan_image wApi5 ["5000159484695", "0000000000000"] =
      .ok ((["5000159484695", "0000000000000"].filter
              (fun c => !lookupFound wApi5 c)),
           (["5000159484695", "0000000000000"].filterMap (fun c =>
             match (FoodProduct.new c).load_info wApi5 with
             | .ok (p, true) => some p
             | _ => none))) :=
  c5_scan_image_collects_successes wApi5 ["5000159484695", "0000000000000"]
    (by decide)

/-- The drawing events of a frame contain no console-print event. -/
theorem allDraws_filter_isReport (bs : List Decoded) :
    (allDraws bs).filter Event.isReport = [] := by
  induction bs with
  | nil => rfl
  | cons b bs ih =>
      simp [allDraws, drawsOf, Event.isReport, List.filter_append, ih]

/-- The drawing events of a frame are all drawing events. -/
theorem allDraws_filter_isDraw (bs : List Decoded) :
    (allDraws bs).filter Event.isDraw = allDraws bs := by
  induction bs with
  | nil => rfl
  | cons b bs ih =>
      simp [allDraws, drawsOf, Event.isDraw, List.filter_append, ih]

/-- When every `time.time()` sample seen while processing the remaining
symbols is still within the cooldown window of `last`, no symbol is
reported: the run only draws, and `last_scan_time` is unchanged. -/
theorem gate_closed_run (api : String → ApiResult) (times : Nat → ℚ)
    (bs : List Decoded) (i : Nat) (last : ℚ)
    (h : ∀ j, j < bs.length →
      times (i + j) - last < ContinuousProductScanner.scan_interval) :
    ContinuousProductScanner.process_barcodes api times i last bs =
      .ok (allDraws bs, last) := by
  induction bs generalizing i with
  | nil => rfl
  | cons b bs ih =>
    have h0 : ¬ ContinuousProductScanner.scan_interval ≤ times i - last := by
      have := h 0 (Nat.succ_pos _)
      simpa using not_le.mpr this
    have hrec := ih (i + 1) (fun j hj => by
      have hj' := h (j + 1) (Nat.succ_lt_succ hj)
      have : i + (j + 1) = i + 1 + j := by omega
      rw [this] at hj'
      exact hj')
    simp [ContinuousProductScanner.process_barcodes, h0, hrec, allDraws]

/-- Injectivity of `Except.ok`, used to read off results of runs. -/
theorem ok_inj {α : Type} {x y : α}
    (h : (Except.ok x : Except Unit α) = .ok y) : x = y := by
  cases h
  rfl

/-- Claim C6: in every frame, every detected symbol has its bounding
box and its "payload (type)" label drawn, unconditionally: whenever
`process_barcodes` returns, the drawing events of its trace are exactly
the draws of all symbols in detection order, independent of the
cooldown gate, the time samples, and `last_scan_time`. -/
theorem c6_draws_unconditional (api : String → ApiResult)
    (times : Nat → ℚ) (bs : List Decoded) (i : Nat) (last : ℚ)
    (evs : List Event) (last' : ℚ)
    (hok : ContinuousProductScanner.process_barcodes api times i last bs =
      .ok (evs, last')) :
    evs.filter Event.isDraw = allDraws bs := by
  induction bs generalizing i last evs last' with
  | nil =>
    have h := ok_inj hok
    injection h with he hl
    subst he
    rfl
  | cons b bs ih =>
    simp only [ContinuousProductScanner.process_barcodes] at hok
    by_cases hg : ContinuousProductScanner.scan_interval ≤ times i - last
    · rw [if_pos hg] at hok
      cases hload : (FoodProduct.new b.data).load_info api with
      | error e => rw [hload] at hok; exact Except.noConfusion hok
      | ok pr =>
        obtain ⟨p, loaded⟩ := pr
        rw [hload] at hok
        cases hrec : ContinuousProductScanner.process_barcodes api times
            (i + 1) (times i) bs with
        | error e => rw [hrec] at hok; exact Except.noConfusion hok
        | ok pr2 =>
          obtain ⟨evs2, l2⟩ := pr2
          rw [hrec] at hok
          have h := ok_inj hok
          injection h with he hl
          subst he
          have ihv := ih (i + 1) (times i) evs2 l2 hrec
          cases loaded <;>
            simp [List.filter_append, drawsOf, Event.isDraw, allDraws, ihv]
    · rw [if_neg hg] at hok
      cases hrec : ContinuousProductScanner.process_barcodes api times
          (i + 1) last bs with
      | error e => rw [hrec] at hok; exact Except.noConfusion hok
      | ok pr2 =>
        obtain ⟨evs2, l2⟩ := pr2
        rw [hrec] at hok
        have h := ok_inj hok
        injection h with he hl
        subst he
        have ihv := ih (i + 1) last evs2 l2 hrec
        simp [List.filter_append, drawsOf, Event.isDraw, allDraws, ihv]

/-- Claim C1: in continuous scan, when the first symbol of a frame
passes the cooldown gate and reports, and every later symbol of that
frame is sampled less than 2 seconds after that report, only the first
symbol triggers a lookup/report in that `process_barcodes` call: the
trace's console events are exactly the first symbol's report, and
`last_scan_time` ends at the first symbol's timestamp, which is what
suppresses every later symbol. -/
theorem c1_first_symbol_only_reports (api : String → ApiResult)
    (times : Nat → ℚ) (last : ℚ) (b : Decoded) (bs : List Decoded)
    (evs : List Event) (last' : ℚ)
    (hfirst : ContinuousProductScanner.scan_interval ≤ times 0 - last)
    (hrest : ∀ j, j < bs.length →
      times (1 + j) - times 0 < ContinuousProductScanner.scan_interval)
    (hok : ContinuousProductScanner.process_barcodes api times 0 last
      (b :: bs) = .ok (evs, last')) :
    evs.filter Event.isReport = reportEvs api b ∧ last' = times 0 := by
  simp only [ContinuousProductScanner.process_barcodes] at hok
  rw [if_pos hfirst] at hok
  cases hload : (FoodProduct.new b.data).load_info api with
  | error e => rw [hload] at hok; exact Except.noConfusion hok
  | ok pr =>
    obtain ⟨p, loaded⟩ := pr
    rw [hload] at hok
    rw [gate_closed_run api times bs (0 + 1) (times 0)
      (fun j hj => by simpa using hrest j hj)] at hok
    have h := ok_inj hok
    injection h with he hl
    subst he
    refine ⟨?_, hl.symm⟩
    cases loaded <;>
      simp [List.filter_append, drawsOf, Event.isReport,
        allDraws_filter_isReport, reportEvs, hload]

/-- Claim C9: `last_scan_time` is set to the timestamp sampled before
the synchronous lookup of the reporting iteration, so the lookup's
duration counts toward the next window: if the second symbol of a frame
is sampled at least 2 seconds after the first (e.g. because the first
lookup took at least 2 seconds), both symbols report, and
`last_scan_time` ends at the second symbol's pre-lookup sample. -/
theorem c9_lookup_time_counts_toward_window (api : String → ApiResult)
    (times : Nat → ℚ) (last : ℚ) (b0 b1 : Decoded)
    (evs : List Event) (last' : ℚ)
    (h0 : ContinuousProductScanner.scan_interval ≤ times 0 - last)
    (h1 : ContinuousProductScanner.scan_interval ≤ times 1 - times 0)
    (hok : ContinuousProductScanner.process_barcodes api times 0 last
      [b0, b1] = .ok (evs, last')) :
    evs.filter Event.isReport = reportEvs api b0 ++ reportEvs api b1 ∧
      last' = times 1 := by
  simp only [ContinuousProductScanner.process_barcodes] at hok
  rw [if_pos h0] at hok
  cases hload0 : (FoodProduct.new b0.data).load_info api with
  | error e => rw [hload0] at hok; exact Except.noConfusion hok
  | ok pr0 =>
    obtain ⟨p0, loaded0⟩ := pr0
    rw [hload0] at hok
    rw [if_pos (show ContinuousProductScanner.scan_interval ≤
      times (0 + 1) - times 0 from h1)] at hok
    cases hload1 : (FoodProduct.new b1.data).load_info api with
    | error e => rw [hload1] at hok; exact Except.noConfusion hok
    | ok pr1 =>
      obtain ⟨p1, loaded1⟩ := pr1
      rw [hload1] at hok
      have h := ok_inj hok
      injection h with he hl
      subst he
      refine ⟨?_, hl.symm⟩
      cases loaded0 <;> cases loaded1 <;>
        simp [List.filter_append, drawsOf, Event.isReport, reportEvs,
          hload0, hload1]

/-- Claim C10: `last_scan_time` starts at 0 in `__init__`, so for any
first `time.time()` sample of at least 2.0 the very first symbol of a
session passes the gate and triggers a lookup and report, with no
initial wait: the trace's console events are exactly that symbol's
report and `last_scan_time` moves to the sample. -/
theorem c10_first_scan_passes_gate (api : String → ApiResult)
    (times : Nat → ℚ) (b : Decoded) (evs : List Event) (last' : ℚ)
    (h : (2 : ℚ) ≤ times 0)
    (hok : ContinuousProductScanner.process_barcodes api times 0
      ContinuousProductScanner.init_last_scan_time [b] = .ok (evs, last')) :
    evs.filter Event.isReport = reportEvs api b ∧ last' = times 0 := by
  have hg : ContinuousProductScanner.scan_interval ≤
      times 0 - ContinuousProductScanner.init_last_scan_time := by
    simpa [ContinuousProductScanner.scan_interval,
      ContinuousProductScanner.init_last_scan_time] using h
  simp only [ContinuousProductScanner.process_barcodes] at hok
  rw [if_pos hg] at hok
  cases hload : (FoodProduct.new b.data).load_info api with
  | error e => rw [hload] at hok; exact Except.noConfusion hok
  | ok pr =>
    obtain ⟨p, loaded⟩ := pr
    rw [hload] at hok
    have h' := ok_inj hok
    injection h' with he hl
    subst he
    refine ⟨?_, hl.symm⟩
    cases loaded <;>
      simp [List.filter_append, drawsOf, Event.isReport, reportEvs, hload]

/-- `countEv` distributes over concatenation. -/
theorem countEv_append (e : SEvent) (l1 l2 : List SEvent) :
    countEv e (l1 ++ l2) = countEv e l1 + countEv e l2 := by
  induction l1 with
  | nil => simp [countEv]
  | cons x xs ih => simp [countEv, ih]; omega

/-- Wrapped `process_barcodes` effects contain no occurrence of a
non-`proc` session event. -/
theorem countEv_map_proc (e : SEvent) (l : List Event)
    (he : ∀ ev : Event, SEvent.proc ev ≠ e) :
    countEv e (l.map SEvent.proc) = 0 := by
  induction l with
  | nil => rfl
  | cons x xs ih => simp [countEv, he x, ih]

/-- Claim C7: whenever `scan_products` exits its loop — by frame
acquisition failure or by the `q` keypress — the camera is released and
the display surface closed exactly once: the run's trace contains
exactly one `release` and one `destroyAllWindows` event. -/
theorem c7_release_exactly_once (api : String → ApiResult) (last : ℚ)
    (inputs : List StepInput) (evs : List SEvent)
    (hok : ContinuousProductScanner.scan_products api last inputs =
      .exited evs) :
    countEv SEvent.release evs = 1 ∧
      countEv SEvent.destroyAllWindows evs = 1 := by
  induction inputs generalizing last evs with
  | nil => exact RunResult.noConfusion hok
  | cons step rest ih =>
    simp only [ContinuousProductScanner.scan_products] at hok
    by_cases hret : step.ret = false
    · rw [if_pos hret] at hok
      injection hok with he
      subst he
      simp [countEv]
    · rw [if_neg hret] at hok
      cases hpb : ContinuousProductScanner.process_barcodes api step.times 0
          last step.symbols with
      | error e => rw [hpb] at hok; exact RunResult.noConfusion hok
      | ok pr =>
        obtain ⟨pevs, last'⟩ := pr
        rw [hpb] at hok
        simp only [] at hok
        by_cases hkey : step.key &&& 255 = 113
        · rw [if_pos hkey] at hok
          injection hok with he
          subst he
          have hr := countEv_map_proc SEvent.release pevs (fun ev => by simp)
          have hd := countEv_map_proc SEvent.destroyAllWindows pevs
            (fun ev => by simp)
          simp [countEv_append, countEv, hr, hd]
        · rw [if_neg hkey] at hok
          cases hrec : ContinuousProductScanner.scan_products api last'
              rest with
          | exited es =>
            rw [hrec] at hok
            injection hok with he
            subst he
            have ihv := ih last' es hrec
            have hr := countEv_map_proc SEvent.release pevs (fun ev => by simp)
            have hd := countEv_map_proc SEvent.destroyAllWindows pevs
              (fun ev => by simp)
            simp [countEv_append, countEv, hr, hd, ihv.1, ihv.2]
          | crashed es => rw [hrec] at hok; exact RunResult.noConfusion hok
          | outOfFrames es => rw [hrec] at hok; exact RunResult.noConfusion hok

/-- Time oracle for a frame scanned 10s into the session whose second
symbol is sampled 1s after the first. -/
def wTimes : Nat → ℚ := fun j => if j = 0 then 10 else 11

/-- Time oracle for a frame whose first lookup takes 2 seconds: the
second symbol is sampled 2s after the first. -/
def wTimesSlow : Nat → ℚ := fun j => if j = 0 then 10 else 12

/-- Two concrete decoded symbols. -/
def wB0 : Decoded := ⟨"40084015", "EAN8", ⟨10, 20, 30, 40⟩⟩

/-- A second concrete decoded symbol. -/
def wB1 : Decoded := ⟨"40111216", "EAN8", ⟨50, 60, 70, 80⟩⟩

/-- Trace of the frame `[wB0, wB1]` under `wTimes`: the first symbol
reports, the second only draws. -/
def wEvs1 : List Event :=
  drawsOf wB0 ++
    (Event.printScanned ("Scanned: " ++ wB0.data ++ " (" ++ wB0.type ++ ")") ::
      [Event.printNotFound]) ++ allDraws [wB1]

/-- Trace of the frame `[wB0, wB1]` under `wTimesSlow`: both report. -/
def wEvs9 : List Event :=
  drawsOf wB0 ++ reportEvs wApi wB0 ++
    (drawsOf wB1 ++ reportEvs wApi wB1 ++ [])

/-- Trace of the one-symbol frame `[wB0]` at time 10 from the initial
state: the symbol reports. -/
def wEvs10 : List Event := drawsOf wB0 ++ reportEvs wApi wB0 ++ []

theorem c1_witness :
    wEvs1.filter Event.isReport = reportEvs wApi wB0 ∧ wTimes 0 = wTimes 0 :=
  c1_first_symbol_only_reports wApi wTimes 0 wB0 [wB1] wEvs1 (wTimes 0)
    (by norm_num [wTimes, ContinuousProductScanner.scan_interval])
    (fun j hj => by
      have hj0 : j = 0 := Nat.lt_one_iff.mp (by simpa using hj)
      subst hj0
      norm_num [wTimes, ContinuousProductScanner.scan_interval])
    (by norm_num [ContinuousProductScanner.process_barcodes, wApi, wTimes,
      wB0, wB1, wEvs1, FoodProduct.load_info, FoodProduct.new,
      ContinuousProductScanner.scan_interval, drawsOf, allDraws])

theorem c6_witness :
    wEvs1.filter Event.isDraw = allDraws [wB0, wB1] :=
  c6_draws_unconditional wApi wTimes [wB0, wB1] 0 0 wEvs1 (wTimes 0)
    (by norm_num [ContinuousProductScanner.process_barcodes, wApi, wTimes,
      wB0, wB1, wEvs1, FoodProduct.load_info, FoodProduct.new,
      ContinuousProductScanner.scan_interval, drawsOf, allDraws])

theorem c9_witness :
    wEvs9.filter Event.isReport = reportEvs wApi wB0 ++ reportEvs wApi wB1 ∧
      wTimesSlow 1 = wTimesSlow 1 :=
  c9_lookup_time_counts_toward_window wApi wTimesSlow 0 wB0 wB1 wEvs9
    (wTimesSlow 1)
    (by norm_num [wTimesSlow, ContinuousProductScanner.scan_interval])
    (by norm_num [wTimesSlow, ContinuousProductScanner.scan_interval])
    (by norm_num [ContinuousProductScanner.process_barcodes, wApi, wTimesSlow,
      wB0, wB1, wEvs9, FoodProduct.load_info, FoodProduct.new,
      ContinuousProductScanner.scan_interval, drawsOf, allDraws, reportEvs])

theorem c10_witness :
    wEvs10.filter Event.isReport = reportEvs wApi wB0 ∧ wTimes 0 = wTimes 0 :=
  c10_first_scan_passes_gate wApi wTimes wB0 wEvs10 (wTimes 0)
    (by norm_num [wTimes])
    (by norm_num [ContinuousProductScanner.process_barcodes, wApi, wTimes,
      wB0, wEvs10, FoodProduct.load_info, FoodProduct.new,
      ContinuousProductScanner.scan_interval,
      ContinuousProductScanner.init_last_scan_time, drawsOf, allDraws,
      reportEvs])

theorem c7_witness :
    countEv SEvent.release
        [SEvent.printFailGrab, SEvent.release, SEvent.destroyAllWindows] = 1 ∧
      countEv SEvent.destroyAllWindows
        [SEvent.printFailGrab, SEvent.release, SEvent.destroyAllWindows] = 1 :=
  c7_release_exactly_once wApi 0 [⟨false, [], wTimes, 0⟩]
    [SEvent.printFailGrab, SEvent.release, SEvent.destroyAllWindows] rfl
